import Mathlib

/-!
Verification of the playlist-synchronization engine of foo_nsync.

The definitions below are a shallow embedding of the C++ sources:
`src/sync_manager.cpp` (scheduler, job engine, manifest parser, reconciler)
and `src/config.cpp` (persisted job list).  Pure helpers become Lean
functions; the stateful engine becomes explicit state passing on a
`SyncState` record, with the observer fan-out rendered as an emitted event
list.  Strings are Lean `String`s (lists of characters); the engine's
asynchronous continuations are modelled as functions from state and the
transport result to a new state plus emitted events.
-/

namespace FooNsync

/-! ## Case-insensitive string identity

`pfc::stricmp_ascii` compares strings after ASCII lower-casing; the
reconciler's `std::set` uses it as comparator (sync_manager.cpp:9-13), so
set membership there is ASCII-case-insensitive string equality. -/

/-- ASCII lower-casing of one character, as `pfc::ascii_tolower` does. -/
def asciiLower (c : Char) : Char :=
  if 'A' ≤ c ∧ c ≤ 'Z' then Char.ofNat (c.toNat + 32) else c

/-- ASCII lower-casing of a string. -/
def strLower (s : String) : String := String.mk (s.data.map asciiLower)

/-- Case-insensitive equality: `pfc::stricmp_ascii(a, b) == 0`. -/
def eqCI (a b : String) : Bool := strLower a = strLower b

/-- Membership in a `std::set<pfc::string8, pfc_string8_compare>`:
some element compares case-insensitively equal. -/
def memCI (x : String) (xs : List String) : Bool := xs.any (eqCI x)

/-! ## Manifest parser — `sync_manager::parse_m3u8` (sync_manager.cpp:251-290)

The C++ scans the payload, cutting it at runs of `\n`/`\r`; a non-empty
segment whose first character is not `#` is trimmed of trailing spaces,
then of trailing tabs, and kept when still non-empty. -/

/-- A line-break character for the scanner (`*ptr == '\n' || *ptr == '\r'`). -/
def isLineBreak (c : Char) : Bool := c == '\n' || c == '\r'

/-- Accumulating scanner: collects the maximal non-empty segments between
runs of line breaks, mirroring the pointer loop of `parse_m3u8`. -/
def splitSegsAux : List Char → List Char → List (List Char)
  | [], acc => if acc.isEmpty then [] else [acc.reverse]
  | c :: cs, acc =>
    if isLineBreak c then
      if acc.isEmpty then splitSegsAux cs []
      else acc.reverse :: splitSegsAux cs []
    else splitSegsAux cs (c :: acc)

/-- The non-empty line segments of the payload, in order. -/
def splitSegments (s : List Char) : List (List Char) := splitSegsAux s []

/-- Drop all trailing occurrences of `ch` (`pfc::string8::skip_trailing_char`). -/
def trimTrailing (ch : Char) (l : List Char) : List Char :=
  (l.reverse.dropWhile (· == ch)).reverse

/-- One segment of `parse_m3u8`: comment lines (first character `#`) are
dropped; otherwise trailing spaces are trimmed, then trailing tabs
(in that order, as the two `skip_trailing_char` calls run), and the line
is kept when still non-empty. -/
def parseLine (l : List Char) : Option (List Char) :=
  match l with
  | [] => none
  | c :: _ =>
    if c = '#' then none
    else
      let t := trimTrailing '\t' (trimTrailing ' ' l)
      if t.isEmpty then none else some t

/-- `sync_manager::parse_m3u8`: ordered list of kept lines. -/
def parse_m3u8 (content : String) : List String :=
  ((splitSegments content.data).filterMap parseLine).map String.mk

/-! ## Path resolution — the rewrite loop of `update_playlist`
(sync_manager.cpp:311-320): a path with the `/stream/` marker gets the
job's server base URL prepended; every other line passes unchanged. -/

/-- `path.has_prefix("/stream/")`. -/
def startsWithStream (p : String) : Bool :=
  "/stream/".data.isPrefixOf p.data

/-- The rewrite applied to one parsed line. -/
def resolve_path (server_url : String) (p : String) : String :=
  if startsWithStream p then server_url ++ p else p

/-- The fully resolved manifest entries for a job: `parse_m3u8` followed by
the `/stream/` rewrite loop of `update_playlist`. -/
def resolved_paths (server_url : String) (content : String) : List String :=
  (parse_m3u8 content).map (resolve_path server_url)

/-! ## Data model — `SyncJob` (config.h:9-51) and the config store
(config.cpp).  `SyncJob::write` serializes every field except
`last_error`, which therefore never reaches the persisted blob. -/

/-- One sync job (config.h:9-16). -/
structure SyncJob where
  server_url : String
  playlist_endpoint : String
  target_playlist : String
  enabled : Bool
  poll_interval_seconds : Nat
  last_hash : String
  last_error : String
deriving DecidableEq, Repr

/-- The job used as a `getD` default; the engine guards every access with
an index bound first, so this value is never observed. -/
def default_job : SyncJob :=
  { server_url := "", playlist_endpoint := "", target_playlist := ""
    enabled := true, poll_interval_seconds := 60
    last_hash := "", last_error := "" }

/-- The serialized form of a job, exactly the fields streamed by
`SyncJob::write` (config.h:19-27): `last_error` is absent. -/
structure SyncDisk where
  server_url : String
  playlist_endpoint : String
  target_playlist : String
  enabled : Bool
  poll_interval_seconds : Nat
  last_hash : String
deriving DecidableEq, Repr

/-- `SyncJob::write` as a projection to the on-disk record. -/
def SyncJob.toDisk (j : SyncJob) : SyncDisk :=
  { server_url := j.server_url, playlist_endpoint := j.playlist_endpoint
    target_playlist := j.target_playlist, enabled := j.enabled
    poll_interval_seconds := j.poll_interval_seconds, last_hash := j.last_hash }

/-- The config store (`sync_config`, config.cpp): the in-memory job list,
the global enabled flag, the persisted blob (`cfg_sync_jobs`), and a
counter of `save()` invocations so persist events are observable. -/
structure ConfigState where
  jobs : List SyncJob
  enabled : Bool
  stored : List SyncDisk
  save_count : Nat
deriving DecidableEq, Repr

/-- `sync_config::save` (config.cpp:44-52): rewrites the blob from the
in-memory list. -/
def ConfigState.save (c : ConfigState) : ConfigState :=
  { c with stored := c.jobs.map SyncJob.toDisk, save_count := c.save_count + 1 }

/-- `sync_config::add_job` (config.cpp:25-28). -/
def add_job (c : ConfigState) (j : SyncJob) : ConfigState :=
  ConfigState.save { c with jobs := c.jobs ++ [j] }

/-- `sync_config::remove_job` (config.cpp:30-35). -/
def remove_job (c : ConfigState) (i : Nat) : ConfigState :=
  if i < c.jobs.length then ConfigState.save { c with jobs := c.jobs.eraseIdx i }
  else c

/-- `sync_config::update_job` (config.cpp:37-42). -/
def update_job (c : ConfigState) (i : Nat) (j : SyncJob) : ConfigState :=
  if i < c.jobs.length then ConfigState.save { c with jobs := c.jobs.set i j }
  else c

/-! ## Playlist store collaborator (foobar2000 `playlist_manager`),
modelled as a name-indexed list of item-path lists. -/

/-- The host's playlist store: ordered playlists, each a name and its
ordered item paths. -/
abbrev PlaylistStore := List (String × List String)

/-- Auxiliary index search for `find_playlist`. -/
def find_index_aux (name : String) : PlaylistStore → Nat → Option Nat
  | [], _ => none
  | e :: rest, k => if e.1 = name then some k else find_index_aux name rest (k + 1)

/-- `playlist_manager::find_playlist`: index of the named playlist. -/
def find_playlist (store : PlaylistStore) (name : String) : Option Nat :=
  find_index_aux name store 0

/-- `sync_manager::find_or_create_playlist` (sync_manager.cpp:292-303):
the found index, or a fresh empty playlist appended at the end. -/
def find_or_create_playlist (store : PlaylistStore) (name : String) :
    PlaylistStore × Nat :=
  match find_playlist store name with
  | some k => (store, k)
  | none => (store ++ [(name, [])], store.length)

/-- The item paths of playlist `k` (reads as
`playlist_get_item_count` / `playlist_get_item_handle` do). -/
def playlist_items (store : PlaylistStore) (k : Nat) : List String :=
  (store.getD k ("", [])).2

/-! ## Reconciler — `sync_manager::update_playlist`
(sync_manager.cpp:305-379). -/

/-- The removal selection mask (`pfc::bit_array_bittable remove_mask`):
bit `i` is set when local item `i` is absent, case-insensitively, from the
downloaded manifest (sync_manager.cpp:343-355). -/
def remove_mask (downloaded cur : List String) : List Bool :=
  cur.map (fun p => !(memCI p downloaded))

/-- Applying the batched removal mask (`playlist_remove_items`): keep
exactly the positions whose bit is clear. -/
def apply_mask : List String → List Bool → List String
  | [], _ => []
  | _ :: _, [] => []
  | p :: ps, b :: bs => if b then apply_mask ps bs else p :: apply_mask ps bs

/-- `remove_count` as accumulated in the removal loop. -/
def mask_count : List Bool → Nat
  | [] => 0
  | b :: bs => (if b then 1 else 0) + mask_count bs

/-- The new paths (`new_paths_storage`, sync_manager.cpp:357-365): manifest
entries absent, case-insensitively, from the local playlist, in manifest
order. -/
def new_paths (downloaded cur : List String) : List String :=
  downloaded.filter (fun p => !(memCI p cur))

/-- Result of one `update_playlist` call: the store afterwards, whether
the empty-manifest console warning fired, how many items the mask removed,
and the appended paths. -/
structure UpdateResult where
  store : PlaylistStore
  warned : Bool
  removed : Nat
  added : List String
deriving DecidableEq, Repr

/-- `sync_manager::update_playlist` (sync_manager.cpp:305-379): parse and
resolve the manifest; when it is empty, warn on the console and return
without touching the store; otherwise find or create the target playlist,
apply the batched removal mask, then append the new paths. -/
def update_playlist (job : SyncJob) (content : String) (store : PlaylistStore) :
    UpdateResult :=
  let file_paths := resolved_paths job.server_url content
  if file_paths.isEmpty then
    { store := store, warned := true, removed := 0, added := [] }
  else
    let fc := find_or_create_playlist store job.target_playlist
    let cur := playlist_items fc.1 fc.2
    let mask := remove_mask file_paths cur
    let adds := new_paths file_paths cur
    { store := fc.1.set fc.2 (job.target_playlist, apply_mask cur mask ++ adds)
      warned := false
      removed := mask_count mask
      added := adds }

/-! ## Engine state and observer events (sync_manager.h, sync_manager.cpp) -/

/-- The whole modelled state: the config store, the runtime in-flight
vector `m_syncing`, the tick counter `m_tick_count`, and the host's
playlist store. -/
structure SyncState where
  config : ConfigState
  syncing : List Bool
  tick_count : Nat
  playlists : PlaylistStore
deriving DecidableEq, Repr

/-- An `isync_callback` fan-out event. -/
inductive SyncEvent where
  | progress (job_index : Nat) (status : String) (percent : Nat)
  | complete (job_index : Nat) (status : String)
deriving DecidableEq, Repr

/-- The job at index `i` (`sync_config::get_job`); every engine access is
guarded by a bound check first. -/
def job_at (s : SyncState) (i : Nat) : SyncJob :=
  s.config.jobs.getD i default_job

/-- `sync_manager::is_syncing` (sync_manager.cpp:105-107). -/
def is_syncing (s : SyncState) (i : Nat) : Bool :=
  decide (i < s.syncing.length) && s.syncing.getD i false

/-- `std::vector::resize(n, false)`: truncate or pad with `false`. -/
def resize_bools (v : List Bool) (n : Nat) : List Bool :=
  v.take n ++ List.replicate (n - v.length) false

/-- `sync_manager::reload_config` (sync_manager.cpp:43-49). -/
def reload_config (s : SyncState) : SyncState :=
  if s.syncing.length ≠ s.config.jobs.length then
    { s with syncing := resize_bools s.syncing s.config.jobs.length }
  else s

/-- `sync_manager::check_and_sync_job` entry (sync_manager.cpp:117-133):
bound guard, set the in-flight flag, emit the first progress event, and
issue the POST `/sync/` request (whose continuation follows separately). -/
def check_and_sync_job (s : SyncState) (i : Nat) : SyncState × List SyncEvent :=
  if i ≥ s.config.jobs.length then (s, [])
  else ({ s with syncing := s.syncing.set i true },
        [SyncEvent.progress i "Syncing server..." 10])

/-- Whether an asynchronous continuation takes its stale-job branch
(`job_index >= config.get_job_count()`, sync_manager.cpp:136, 165, 212). -/
def stale_branch (s : SyncState) (i : Nat) : Bool :=
  decide (i ≥ s.config.jobs.length)

/-- Whether the stale branch's `m_syncing[job_index] = false` write is
within the runtime vector; when this is `false` the C++ write is an
out-of-bounds `std::vector<bool>` access. -/
def syncing_write_in_bounds (s : SyncState) (i : Nat) : Bool :=
  decide (i < s.syncing.length)

/-- `sync_manager::sync_now` (sync_manager.cpp:82-93). -/
def sync_now (s : SyncState) (i : Nat) : SyncState × List SyncEvent :=
  let s1 := if s.syncing.length < s.config.jobs.length then reload_config s else s
  if i < s1.config.jobs.length ∧ i < s1.syncing.length ∧
      s1.syncing.getD i false = false then
    check_and_sync_job s1 i
  else (s1, [])

/-- `sync_manager::on_timer` (sync_manager.cpp:65-80): increment the tick
counter; when global sync is enabled, hand to the engine every job that is
enabled, not in flight, and whose interval divides the new counter.  The
returned list is the indices passed to `check_and_sync_job`, in order. -/
def on_timer (s : SyncState) : SyncState × List Nat :=
  let s1 := { s with tick_count := s.tick_count + 1 }
  if s1.config.enabled = false then (s1, [])
  else
    (s1, (List.range s1.config.jobs.length).filter (fun i =>
      (job_at s1 i).enabled && !(s1.syncing.getD i false) &&
        decide (s1.tick_count % (job_at s1 i).poll_interval_seconds = 0)))

/-! ## The hash-check and download continuations
(`sync_manager::check_hash_and_download`, sync_manager.cpp:163-249). -/

/-- What the hash continuation does next: stop, or issue the manifest GET
at the given URL, remembering the fetched fingerprint. -/
inductive HashStepNext where
  | halt
  | download (url : String) (new_hash : String)
deriving DecidableEq, Repr

/-- Outcome of the hash continuation: new state, emitted events, next
action. -/
structure StepOut where
  state : SyncState
  events : List SyncEvent
  next : HashStepNext
deriving DecidableEq, Repr

/-- `sync_manager::check_hash_and_download` (sync_manager.cpp:163-209):
stale guard; on transport failure record the error, clear the flag and
emit "Error"; on success compare the fingerprint with `last_hash`, forcing
a download when the target playlist does not exist; equal-and-existing
clears the error and emits "OK (No Change)"; otherwise proceed to the
manifest download. -/
def check_hash_and_download (s : SyncState) (i : Nat) (success : Bool)
    (response error : String) : StepOut :=
  if i ≥ s.config.jobs.length then
    { state := { s with syncing := s.syncing.set i false }
      events := [], next := HashStepNext.halt }
  else
    let job := job_at s i
    if success then
      let force_update := (find_playlist s.playlists job.target_playlist).isNone
      if response = job.last_hash ∧ force_update = false then
        { state :=
            { s with
              config := { s.config with
                jobs := s.config.jobs.set i { job with last_error := "" } }
              syncing := s.syncing.set i false }
          events := [SyncEvent.complete i "OK (No Change)"]
          next := HashStepNext.halt }
      else
        { state := s
          events := [SyncEvent.progress i "Downloading..." 50]
          next := HashStepNext.download
            (job.server_url ++ "/playlist/" ++ job.playlist_endpoint) response }
    else
      { state :=
          { s with
            config := { s.config with
              jobs := s.config.jobs.set i { job with last_error := error } }
            syncing := s.syncing.set i false }
        events := [SyncEvent.complete i "Error"]
        next := HashStepNext.halt }

/-- The manifest-download continuation (sync_manager.cpp:209-248): stale
guard; on transport failure record the error, clear the flag, emit
"Error"; on success run `update_playlist`, store the fetched fingerprint,
clear the error, save the config, clear the flag, and emit "OK". -/
def download_complete (s : SyncState) (i : Nat) (new_hash : String)
    (success : Bool) (response error : String) : SyncState × List SyncEvent :=
  if i ≥ s.config.jobs.length then
    ({ s with syncing := s.syncing.set i false }, [])
  else
    let job := job_at s i
    if success then
      let r := update_playlist job response s.playlists
      ({ s with
          config := ConfigState.save { s.config with
            jobs := s.config.jobs.set i
              { job with last_hash := new_hash, last_error := "" } }
          playlists := r.store
          syncing := s.syncing.set i false },
       [SyncEvent.progress i "Updating Playlist..." 80, SyncEvent.complete i "OK"])
    else
      ({ s with
          config := { s.config with
            jobs := s.config.jobs.set i { job with last_error := error } }
          syncing := s.syncing.set i false },
       [SyncEvent.complete i "Error"])

/-! ## Concrete states used to instantiate the theorems -/

/-- A representative configured job. -/
def demo_job : SyncJob :=
  { server_url := "http://h:1", playlist_endpoint := "music"
    target_playlist := "P", enabled := true, poll_interval_seconds := 15
    last_hash := "h0", last_error := "" }

/-- A representative engine state: one job, its attempt in flight, the
target playlist existing with one item. -/
def demo_state : SyncState :=
  { config := { jobs := [demo_job], enabled := true
                stored := [demo_job.toDisk], save_count := 0 }
    syncing := [true], tick_count := 0, playlists := [("P", ["a"])] }

/-- A job whose manifest entries are already absolute (no rewrite). -/
def c3_job : SyncJob :=
  { server_url := "", playlist_endpoint := "m", target_playlist := "P"
    enabled := true, poll_interval_seconds := 60
    last_hash := "", last_error := "" }

/-- Scheduler state one tick before a 15-second job becomes due. -/
def c8_state : SyncState :=
  { config := { jobs := [demo_job], enabled := true, stored := [], save_count := 0 }
    syncing := [false], tick_count := 14, playlists := [] }

/-- Idle state with one job, nothing in flight (start of the deleted
mid-flight scenario). -/
def c5_s0 : SyncState :=
  { config := { jobs := [demo_job], enabled := true
                stored := [demo_job.toDisk], save_count := 0 }
    syncing := [false], tick_count := 0, playlists := [] }

/-- After the engine starts the job's attempt: the flag is in flight and
the POST request is outstanding. -/
def c5_s1 : SyncState := (check_and_sync_job c5_s0 0).1

/-- After the user deletes the job and the preferences apply path runs
`remove_job` followed by `reload_config` (preferences.cpp:215-232), while
the request is still outstanding. -/
def c5_s2 : SyncState := reload_config { c5_s1 with config := remove_job c5_s1.config 0 }

end FooNsync

namespace FooNsync

/-! ## Helper lemmas -/

lemma getD_set_self {α : Type} (l : List α) (i : Nat) (a d : α)
    (h : i < l.length) : (l.set i a).getD i d = a := by
  induction l generalizing i with
  | nil => simp at h
  | cons x l ih =>
    cases i with
    | zero => rfl
    | succ i => exact ih i (Nat.succ_lt_succ_iff.mp h)

lemma getD_set_false (v : List Bool) (i : Nat) :
    (v.set i false).getD i false = false := by
  induction v generalizing i with
  | nil => rfl
  | cons b v ih =>
    cases i with
    | zero => rfl
    | succ i => exact ih i

lemma getElem?_set_false (v : List Bool) (i : Nat) :
    ((v.set i false)[i]?).getD false = false := by
  induction v generalizing i with
  | nil => simp
  | cons b v ih =>
    cases i with
    | zero => simp
    | succ i => simpa using ih i

lemma clear_read (v : List Bool) (i : Nat) :
    (decide (i < (v.set i false).length) && (v.set i false).getD i false) = false := by
  rw [getD_set_false]; exact Bool.and_false _

lemma isEmpty_eq_false_of_ne {α : Type} {l : List α} (h : l ≠ []) :
    l.isEmpty = false := by
  cases l with
  | nil => exact absurd rfl h
  | cons x l => rfl

lemma apply_mask_remove_eq (R cur : List String) :
    apply_mask cur (remove_mask R cur) = cur.filter (fun p => memCI p R) := by
  induction cur with
  | nil => rfl
  | cons x cur ih =>
    by_cases h : memCI x R = true
    · simp [remove_mask, apply_mask, List.filter_cons, h] at *
      exact ih
    · rw [Bool.not_eq_true] at h
      simp [remove_mask, apply_mask, List.filter_cons, h] at *
      exact ih

lemma mask_count_remove (R cur : List String) :
    mask_count (remove_mask R cur) =
      (cur.filter (fun p => !(memCI p R))).length := by
  induction cur with
  | nil => rfl
  | cons x cur ih =>
    by_cases h : memCI x R = true
    · simp [remove_mask, mask_count, List.filter_cons, h] at *
      omega
    · rw [Bool.not_eq_true] at h
      simp [remove_mask, mask_count, List.filter_cons, h] at *
      omega

/-! ## Claim theorems -/

/-- C3: reconciliation applies a minimal diff.  With `R` the parsed,
resolved manifest and `L` the current items of the (existing) target
playlist, compared case-insensitively: the playlist afterwards holds
exactly the items of `L` present in `R` (never removed or re-added),
followed by the items of `R` absent from `L` in manifest order; the
batched removal mask removes exactly the items of `L` absent from `R`,
and the appended paths are exactly the items of `R` absent from `L`. -/
theorem C3_minimal_diff (job : SyncJob) (content : String) (L : List String)
    (hR : resolved_paths job.server_url content ≠ []) :
    (update_playlist job content [(job.target_playlist, L)]).store =
      [(job.target_playlist,
        L.filter (fun p => memCI p (resolved_paths job.server_url content)) ++
        (resolved_paths job.server_url content).filter (fun p => !(memCI p L)))] ∧
    (update_playlist job content [(job.target_playlist, L)]).removed =
      (L.filter (fun p => !(memCI p (resolved_paths job.server_url content)))).length ∧
    (update_playlist job content [(job.target_playlist, L)]).added =
      (resolved_paths job.server_url content).filter (fun p => !(memCI p L)) := by
  have hne := isEmpty_eq_false_of_ne hR
  simp only [update_playlist, hne, Bool.false_eq_true, if_false,
    find_or_create_playlist, find_playlist, find_index_aux, if_pos rfl,
    playlist_items, List.getD, List.get?, Option.getD_some,
    apply_mask_remove_eq, mask_count_remove, new_paths, List.set]
  simp

/-- C3 witness: the claim's own instance — local `{a,b,c}`, remote
`{b,c,d}` gives `{b,c,d}`, one removal, one addition (`d`). -/
theorem C3_minimal_diff_witness :
    (update_playlist c3_job "b\nc\nd\n" [(c3_job.target_playlist, ["a", "b", "c"])]).store =
      [(c3_job.target_playlist, ["b", "c", "d"])] ∧
    (update_playlist c3_job "b\nc\nd\n" [(c3_job.target_playlist, ["a", "b", "c"])]).removed = 1 ∧
    (update_playlist c3_job "b\nc\nd\n" [(c3_job.target_playlist, ["a", "b", "c"])]).added = ["d"] := by
  have h := C3_minimal_diff c3_job "b\nc\nd\n" ["a", "b", "c"] (by decide)
  refine ⟨?_, ?_, ?_⟩
  · rw [h.1]; decide
  · rw [h.2.1]; decide
  · rw [h.2.2]; decide

/-- C5: the code bug at the failing input.  One job starts an attempt
(`c5_s1` has its flag in flight); the job is then deleted and
`reload_config` shrinks the runtime vector to length zero while the
request is outstanding (`c5_s2`).  The continuation takes its stale-job
branch, and its `m_syncing[job_index] = false` write is out of the
vector's bounds — contradicting the claim that every access to the
runtime in-flight vector stays within bounds. -/
theorem C5_stale_write_out_of_bounds :
    c5_s1.syncing = [true] ∧
    c5_s2.config.jobs = [] ∧
    c5_s2.syncing = [] ∧
    stale_branch c5_s2 0 = true ∧
    syncing_write_in_bounds c5_s2 0 = false := by decide

/-- C6 counterexample: the parser trims trailing spaces first, then
trailing tabs, so the line `"x \t"` keeps a trailing space — the claim's
rule that trailing spaces and tabs are trimmed from remaining lines fails
on this input. -/
theorem C6_trim_counterexample :
    resolved_paths "http://h:1" "x \t\n" = ["x "] ∧
    ("x ").data.getLast? = some ' ' := by decide

/-- C6 amended: the parser drops blank lines and lines starting with `#`,
trims trailing spaces and then trailing tabs (in that order, so a space
before a final tab survives), rewrites `/stream/`-prefixed lines by
prepending the server base URL, passes other non-empty lines through
unchanged in manifest order; the claim's example evaluates exactly as
stated. -/
theorem C6_parser_amended :
    resolved_paths "http://h:1" "#c\n\n/stream/abc\nhttp://x/y\n" =
      ["http://h:1/stream/abc", "http://x/y"] ∧
    (∀ rest : List Char, parseLine ('#' :: rest) = none) ∧
    parseLine [] = none ∧
    (∀ (c : Char) (rest : List Char), c ≠ '#' →
      parseLine (c :: rest) =
        (if (trimTrailing '\t' (trimTrailing ' ' (c :: rest))).isEmpty then none
         else some (trimTrailing '\t' (trimTrailing ' ' (c :: rest))))) ∧
    (∀ url p, resolve_path url p = if startsWithStream p then url ++ p else p) ∧
    (∀ url content, resolved_paths url content =
      ((splitSegments content.data).filterMap parseLine).map
        (fun l => resolve_path url (String.mk l))) := by
  refine ⟨by decide, ?_, rfl, ?_, fun url p => rfl, ?_⟩
  · intro rest; simp [parseLine]
  · intro c rest h; simp [parseLine, h]
  · intro url content
    simp [resolved_paths, parse_m3u8, List.map_map]

/-- C6 amended witness: the trim rule applied at a concrete non-comment
line. -/
theorem C6_parser_amended_witness :
    parseLine ('a' :: [' ']) = some ['a'] := by
  rw [C6_parser_amended.2.2.2.1 'a' [' '] (by decide)]
  decide

/-- C1 counterexample: in `demo_state` the stored fingerprint is `"h0"`
and the manifest `"#c\n"` parses to zero valid entries, yet the download
continuation sets `last_hash` to the fetched `"h2"` and emits the terminal
"OK" label — the collection alone is left unchanged.  The claim's
assertions that `last_hash` stays unchanged and that "OK" is never emitted
are both false on the code. -/
theorem C1_empty_manifest_counterexample :
    resolved_paths (job_at demo_state 0).server_url "#c\n" = [] ∧
    (job_at demo_state 0).last_hash = "h0" ∧
    (job_at (download_complete demo_state 0 "h2" true "#c\n" "").1 0).last_hash = "h2" ∧
    (download_complete demo_state 0 "h2" true "#c\n" "").2 =
      [SyncEvent.progress 0 "Updating Playlist..." 80, SyncEvent.complete 0 "OK"] ∧
    (download_complete demo_state 0 "h2" true "#c\n" "").1.playlists =
      demo_state.playlists := by decide

/-- C1 amended: a manifest with zero valid entries leaves the target
collection unchanged and raises the console warning inside
`update_playlist`, but the engine then still stores the fetched
fingerprint as `last_hash`, persists the config, clears the in-flight
flag, and emits the terminal "OK" label (not a distinct warning label). -/
theorem C1_empty_manifest_amended (s : SyncState) (i : Nat) (nh resp : String)
    (hi : i < s.config.jobs.length)
    (hempty : resolved_paths (job_at s i).server_url resp = []) :
    (update_playlist (job_at s i) resp s.playlists).store = s.playlists ∧
    (update_playlist (job_at s i) resp s.playlists).warned = true ∧
    (download_complete s i nh true resp "").1.playlists = s.playlists ∧
    (job_at (download_complete s i nh true resp "").1 i).last_hash = nh ∧
    (download_complete s i nh true resp "").1.config.save_count =
      s.config.save_count + 1 ∧
    (download_complete s i nh true resp "").1.syncing = s.syncing.set i false ∧
    (download_complete s i nh true resp "").2 =
      [SyncEvent.progress i "Updating Playlist..." 80, SyncEvent.complete i "OK"] := by
  simp only [job_at] at hempty ⊢
  have hguard : ¬ i ≥ s.config.jobs.length := Nat.not_le.mpr hi
  have hup : update_playlist (s.config.jobs.getD i default_job) resp s.playlists =
      { store := s.playlists, warned := true, removed := 0, added := [] } := by
    simp only [update_playlist, hempty, List.isEmpty_nil, eq_self_iff_true, if_true]
  refine ⟨?_, ?_, ?_, ?_, ?_, ?_, ?_⟩ <;>
    simp only [download_complete, job_at, if_neg hguard, eq_self_iff_true, if_true,
      hup, ConfigState.save] <;>
    first
      | rfl
      | rw [getD_set_self _ _ _ _ hi]

/-- C1 amended witness: the amended behavior at the concrete state. -/
theorem C1_empty_manifest_amended_witness :
    (update_playlist (job_at demo_state 0) "#c\n" demo_state.playlists).warned = true ∧
    (job_at (download_complete demo_state 0 "h2" true "#c\n" "").1 0).last_hash = "h2" :=
  ⟨(C1_empty_manifest_amended demo_state 0 "h2" "#c\n" (by decide) (by decide)).2.1,
   (C1_empty_manifest_amended demo_state 0 "h2" "#c\n" (by decide) (by decide)).2.2.2.1⟩

/-- C2: after a successful fingerprint fetch, the engine proceeds to the
manifest download exactly when the fetched fingerprint differs from the
stored `last_hash` or the target playlist does not exist; when the
fingerprint matches and the playlist exists it clears the stored error,
keeps `last_hash`, clears the in-flight flag, emits exactly the terminal
"OK (No Change)" event, and does no further network or storage work. -/
theorem C2_no_change_fast_path (s : SyncState) (i : Nat) (resp : String)
    (hi : i < s.config.jobs.length) :
    ((check_hash_and_download s i true resp "").next =
        HashStepNext.download
          ((job_at s i).server_url ++ "/playlist/" ++ (job_at s i).playlist_endpoint)
          resp
      ↔ (resp ≠ (job_at s i).last_hash ∨
         find_playlist s.playlists (job_at s i).target_playlist = none)) ∧
    (resp = (job_at s i).last_hash →
     (find_playlist s.playlists (job_at s i).target_playlist).isSome = true →
      (check_hash_and_download s i true resp "").next = HashStepNext.halt ∧
      (job_at (check_hash_and_download s i true resp "").state i).last_error = "" ∧
      (job_at (check_hash_and_download s i true resp "").state i).last_hash =
        (job_at s i).last_hash ∧
      (check_hash_and_download s i true resp "").state.syncing = s.syncing.set i false ∧
      (check_hash_and_download s i true resp "").events =
        [SyncEvent.complete i "OK (No Change)"] ∧
      (check_hash_and_download s i true resp "").state.playlists = s.playlists ∧
      (check_hash_and_download s i true resp "").state.config.save_count =
        s.config.save_count ∧
      (check_hash_and_download s i true resp "").state.config.stored =
        s.config.stored) := by
  simp only [job_at] at *
  have hguard : ¬ i ≥ s.config.jobs.length := Nat.not_le.mpr hi
  by_cases hr : resp = (s.config.jobs.getD i default_job).last_hash
  · cases hfp : find_playlist s.playlists (s.config.jobs.getD i default_job).target_playlist with
    | none =>
      constructor
      · simp only [check_hash_and_download, job_at, if_neg hguard, eq_self_iff_true,
          if_true, hr, hfp, Option.isNone_none, Bool.true_eq_false, and_false, if_false]
        simp
      · intro _ hsome
        simp at hsome
    | some k =>
      constructor
      · simp only [check_hash_and_download, job_at, if_neg hguard, eq_self_iff_true,
          if_true, hr, hfp, Option.isNone_some, and_self]
        simp
      · intro _ _
        refine ⟨?_, ?_, ?_, ?_, ?_, ?_, ?_, ?_⟩ <;>
          simp only [check_hash_and_download, job_at, if_neg hguard, eq_self_iff_true,
            if_true, hr, hfp, Option.isNone_some, and_self] <;>
          first
            | rfl
            | rw [getD_set_self _ _ _ _ hi]
  · constructor
    · simp only [check_hash_and_download, job_at, if_neg hguard, eq_self_iff_true, if_true]
      rw [if_neg (show ¬(resp = (s.config.jobs.getD i default_job).last_hash ∧
            (find_playlist s.playlists
              (s.config.jobs.getD i default_job).target_playlist).isNone = false)
          from fun h => hr h.1)]
      exact iff_of_true rfl (Or.inl hr)
    · intro h; exact absurd h hr

/-- C2 witness: the fast path at the concrete state (matching fingerprint,
existing playlist). -/
theorem C2_no_change_fast_path_witness :
    (check_hash_and_download demo_state 0 true "h0" "").next = HashStepNext.halt ∧
    (check_hash_and_download demo_state 0 true "h0" "").events =
      [SyncEvent.complete 0 "OK (No Change)"] :=
  ⟨((C2_no_change_fast_path demo_state 0 "h0" (by decide)).2 (by decide) (by decide)).1,
   ((C2_no_change_fast_path demo_state 0 "h0" (by decide)).2 (by decide) (by decide)).2.2.2.2.1⟩

/-- C4: on a transport failure in the fingerprint check or in the manifest
download, the engine records the error text on the job, leaves `last_hash`
unchanged, clears the in-flight flag, and emits exactly one terminal
"Error" event. -/
theorem C4_transport_error (s : SyncState) (i : Nat) (resp err nh : String)
    (hi : i < s.config.jobs.length) :
    ((job_at (check_hash_and_download s i false resp err).state i).last_error = err ∧
     (job_at (check_hash_and_download s i false resp err).state i).last_hash =
       (job_at s i).last_hash ∧
     (check_hash_and_download s i false resp err).state.syncing =
       s.syncing.set i false ∧
     (check_hash_and_download s i false resp err).events =
       [SyncEvent.complete i "Error"] ∧
     (check_hash_and_download s i false resp err).next = HashStepNext.halt) ∧
    ((job_at (download_complete s i nh false resp err).1 i).last_error = err ∧
     (job_at (download_complete s i nh false resp err).1 i).last_hash =
       (job_at s i).last_hash ∧
     (download_complete s i nh false resp err).1.syncing = s.syncing.set i false ∧
     (download_complete s i nh false resp err).2 = [SyncEvent.complete i "Error"]) := by
  simp only [job_at]
  have hguard : ¬ i ≥ s.config.jobs.length := Nat.not_le.mpr hi
  refine ⟨⟨?_, ?_, ?_, ?_, ?_⟩, ?_, ?_, ?_, ?_⟩ <;>
    simp only [check_hash_and_download, download_complete, job_at, if_neg hguard,
      Bool.false_eq_true, if_false] <;>
    first
      | rfl
      | rw [getD_set_self _ _ _ _ hi]

/-- C4 witness: a failed fingerprint check at the concrete state records
the error and emits exactly one "Error" event. -/
theorem C4_transport_error_witness :
    (job_at (check_hash_and_download demo_state 0 false "" "timeout").state 0).last_error
      = "timeout" ∧
    (check_hash_and_download demo_state 0 false "" "timeout").events =
      [SyncEvent.complete 0 "Error"] :=
  ⟨(C4_transport_error demo_state 0 "" "timeout" "h9" (by decide)).1.1,
   (C4_transport_error demo_state 0 "" "timeout" "h9" (by decide)).1.2.2.2.1⟩

/-- C7 counterexample: a failed fingerprint check mutates the job's
`last_error` but performs no persist — the save counter and the stored
blob are untouched, so not every engine mutation of a job triggers an
immediate persist. -/
theorem C7_persist_counterexample :
    (job_at (check_hash_and_download demo_state 0 false "" "boom").state 0).last_error
      = "boom" ∧
    (check_hash_and_download demo_state 0 false "" "boom").state.config.save_count =
      demo_state.config.save_count ∧
    (check_hash_and_download demo_state 0 false "" "boom").state.config.stored =
      demo_state.config.stored := by decide

/-- C7 amended: explicit add, edit, and delete each persist immediately
and synchronously; `last_error` is excluded from the serialized form; the
engine persists only on the successful-reconciliation path, while its
error-field updates on failed attempts leave the save counter and the
stored blob untouched. -/
theorem C7_persist_amended :
    (∀ (c : ConfigState) (j : SyncJob),
      (add_job c j).jobs = c.jobs ++ [j] ∧
      (add_job c j).stored = (c.jobs ++ [j]).map SyncJob.toDisk ∧
      (add_job c j).save_count = c.save_count + 1) ∧
    (∀ (c : ConfigState) (i : Nat) (j : SyncJob), i < c.jobs.length →
      (update_job c i j).stored = (c.jobs.set i j).map SyncJob.toDisk ∧
      (update_job c i j).save_count = c.save_count + 1) ∧
    (∀ (c : ConfigState) (i : Nat), i < c.jobs.length →
      (remove_job c i).stored = (c.jobs.eraseIdx i).map SyncJob.toDisk ∧
      (remove_job c i).save_count = c.save_count + 1) ∧
    (∀ (j : SyncJob) (e : String),
      SyncJob.toDisk { j with last_error := e } = j.toDisk) ∧
    (∀ (s : SyncState) (i : Nat) (resp err : String),
      (check_hash_and_download s i false resp err).state.config.save_count =
        s.config.save_count ∧
      (check_hash_and_download s i false resp err).state.config.stored =
        s.config.stored) ∧
    (∀ (s : SyncState) (i : Nat) (nh resp err : String),
      (download_complete s i nh false resp err).1.config.save_count =
        s.config.save_count ∧
      (download_complete s i nh false resp err).1.config.stored =
        s.config.stored) ∧
    (∀ (s : SyncState) (i : Nat) (nh resp : String), i < s.config.jobs.length →
      (download_complete s i nh true resp "").1.config.save_count =
        s.config.save_count + 1) := by
  refine ⟨?_, ?_, ?_, ?_, ?_, ?_, ?_⟩
  · intro c j; exact ⟨rfl, rfl, rfl⟩
  · intro c i j h; simp [update_job, h, ConfigState.save]
  · intro c i h; simp [remove_job, h, ConfigState.save]
  · intro j e; rfl
  · intro s i resp err
    by_cases hg : i ≥ s.config.jobs.length
    · simp [check_hash_and_download, if_pos hg]
    · simp [check_hash_and_download, if_neg hg]
  · intro s i nh resp err
    by_cases hg : i ≥ s.config.jobs.length
    · simp [download_complete, if_pos hg]
    · simp [download_complete, if_neg hg]
  · intro s i nh resp h
    have hg : ¬ i ≥ s.config.jobs.length := Nat.not_le.mpr h
    simp [download_complete, if_neg hg, ConfigState.save]

/-- C7 amended witness: an edit persists; a failed check does not. -/
theorem C7_persist_amended_witness :
    (update_job demo_state.config 0 demo_job).save_count =
      demo_state.config.save_count + 1 ∧
    (check_hash_and_download demo_state 0 false "" "boom").state.config.save_count =
      demo_state.config.save_count :=
  ⟨(C7_persist_amended.2.1 demo_state.config 0 demo_job (by decide)).2,
   (C7_persist_amended.2.2.2.2.1 demo_state 0 "" "boom").1⟩

/-- C8: on a scheduler tick the counter is incremented, and a job is
handed to the engine exactly when global sync is enabled, the job exists
and is enabled, its in-flight flag is clear, and the incremented counter
is a multiple of its poll interval. -/
theorem C8_schedule (s : SyncState) (i : Nat)
    (hwf : s.syncing.length = s.config.jobs.length) :
    (on_timer s).1.tick_count = s.tick_count + 1 ∧
    (i ∈ (on_timer s).2 ↔
      (s.config.enabled = true ∧ i < s.config.jobs.length ∧
       (job_at s i).enabled = true ∧ s.syncing.getD i false = false ∧
       (s.tick_count + 1) % (job_at s i).poll_interval_seconds = 0)) := by
  constructor
  · by_cases he : s.config.enabled = false <;> simp [on_timer, he]
  · by_cases he : s.config.enabled = false
    · simp [on_timer, he]
    · have he2 : s.config.enabled = true := by
        cases h : s.config.enabled
        · exact absurd h he
        · rfl
      simp [on_timer, he2, List.mem_filter, List.mem_range, job_at,
        Bool.and_eq_true, Bool.not_eq_true', decide_eq_true_eq]
      tauto

/-- C8 witness: the 15-second job fires on the tick where the incremented
counter reaches 15. -/
theorem C8_schedule_witness : 0 ∈ (on_timer c8_state).2 :=
  (C8_schedule c8_state 0 (by decide)).2.mpr (by decide)

/-- C9: whenever a terminal `on_sync_complete` event is emitted by the
hash-check continuation or the download continuation, the resulting state
already has the job's in-flight flag cleared, so `is_syncing` for that job
returns false. -/
theorem C9_complete_clears_flag (s : SyncState) (i j : Nat) (success : Bool)
    (response error new_hash label : String) :
    (SyncEvent.complete j label ∈ (check_hash_and_download s i success response error).events →
      is_syncing (check_hash_and_download s i success response error).state j = false) ∧
    (SyncEvent.complete j label ∈ (download_complete s i new_hash success response error).2 →
      is_syncing (download_complete s i new_hash success response error).1 j = false) := by
  constructor
  · intro hmem
    by_cases hg : i ≥ s.config.jobs.length
    · simp only [check_hash_and_download, if_pos hg] at hmem
      simp at hmem
    · simp only [check_hash_and_download, if_neg hg] at hmem ⊢
      cases success with
      | true =>
        by_cases hc : response = (job_at s i).last_hash ∧
            (find_playlist s.playlists (job_at s i).target_playlist).isNone = false
        · simp only [eq_self_iff_true, if_true, if_pos hc] at hmem ⊢
          simp at hmem
          obtain ⟨hj, -⟩ := hmem
          subst hj
          simp [is_syncing, getD_set_false, getElem?_set_false]
        · simp only [eq_self_iff_true, if_true, if_neg hc] at hmem
          simp at hmem
      | false =>
        simp only [Bool.false_eq_true, if_false] at hmem ⊢
        simp at hmem
        obtain ⟨hj, -⟩ := hmem
        subst hj
        simp [is_syncing, getD_set_false, getElem?_set_false]
  · intro hmem
    by_cases hg : i ≥ s.config.jobs.length
    · simp only [download_complete, if_pos hg] at hmem
      simp at hmem
    · simp only [download_complete, if_neg hg] at hmem ⊢
      cases success with
      | true =>
        simp only [eq_self_iff_true, if_true] at hmem ⊢
        simp at hmem
        obtain ⟨hj, -⟩ := hmem
        subst hj
        simp [is_syncing, getD_set_false, getElem?_set_false]
      | false =>
        simp only [Bool.false_eq_true, if_false] at hmem ⊢
        simp at hmem
        obtain ⟨hj, -⟩ := hmem
        subst hj
        simp [is_syncing, getD_set_false, getElem?_set_false]

/-- C9 witness: after the concrete "Error" completion, `is_syncing` is
false. -/
theorem C9_complete_clears_flag_witness :
    is_syncing (check_hash_and_download demo_state 0 false "" "e").state 0 = false :=
  (C9_complete_clears_flag demo_state 0 0 false "" "e" "x" "Error").1 (by decide)

/-- C10: for an index at or beyond the job count, with the runtime vector
sized to the job list, `sync_now` is a no-op that starts no attempt, and
`is_syncing` returns false rather than faulting. -/
theorem C10_out_of_range (s : SyncState) (i : Nat)
    (hi : s.config.jobs.length ≤ i) (hwf : s.syncing.length = s.config.jobs.length) :
    sync_now s i = (s, []) ∧ is_syncing s i = false := by
  have hnl : ¬ s.syncing.length < s.config.jobs.length := by omega
  constructor
  · simp only [sync_now, if_neg hnl]
    rw [if_neg (fun h => (Nat.not_lt.mpr hi) h.1)]
  · simp only [is_syncing, hwf]
    have hni : ¬ i < s.config.jobs.length := Nat.not_lt.mpr hi
    simp [hni]

/-- C10 witness: index 5 against the single-job state. -/
theorem C10_out_of_range_witness :
    sync_now demo_state 5 = (demo_state, []) ∧ is_syncing demo_state 5 = false :=
  C10_out_of_range demo_state 5 (by decide) (by decide)

end FooNsync

